import Mathlib

/-!
Verification development for the 12-step program management service
(`12Step.py`, class `Church12StepProgram`).

Shallow embedding conventions:
* Calendar dates and datetimes are absolute day numbers (`Int`); the
  implicit `datetime.date.today()` becomes an explicit `today : Int`
  parameter of every operation that reads the clock.
* The SQLite store plus the in-process `current_user` field of the class
  become one explicit state record `ProgState`; each SQL statement is
  embedded by its relational semantics over the lists in that record
  (SQL operator precedence included: `AND` binds tighter than `OR`, a
  comparison with `NULL` is not true).
* Operations that can raise `PermissionError` / `ValueError` return
  `Except OpError`; on an error no new state is produced, matching the
  source, which raises before touching the database.
* Password hashing (`hashlib.sha256`) is outside the embedding: the
  credential check of `authenticate_user` is an abstract parameter
  `verify : String → String → Bool` (password, stored hash).
* `ORDER BY` clauses are not modelled: every claim below is about row
  membership or row counts, which reordering does not change; report
  rows are produced in store order.
-/

/-- `Student` dataclass / row of the `students` table. -/
structure Student where
  id : Nat
  name : String
  phone : String
  email : String
  graduation_date : Option Int
  created_date : Int
  archived : Bool
  archived_date : Option Int
deriving DecidableEq, Repr

/-- `AttendanceRecord` dataclass / row of the `attendance` table. -/
structure AttendanceRecord where
  id : Nat
  student_id : Nat
  step_number : Nat
  instructor : String
  date : Int
deriving DecidableEq, Repr

/-- `User` dataclass / row of the `users` table. -/
structure User where
  id : Nat
  username : String
  password_hash : String
  role : String
  created_date : Int
  last_login : Option Int
deriving DecidableEq, Repr

/-- The persistent store (three tables) together with the instance field
`current_user` of `Church12StepProgram`.  `next_student_id` and
`next_attendance_id` model the `AUTOINCREMENT` counters. -/
structure ProgState where
  students : List Student
  attendance : List AttendanceRecord
  users : List User
  current_user : Option User
  next_student_id : Nat
  next_attendance_id : Nat
deriving DecidableEq, Repr

/-- Error taxonomy of the source: `PermissionError` (carrying the gated
action) and `ValueError` (unknown report type or role). -/
inductive OpError where
  | permissionDenied (action : String)
  | valueError (msg : String)
deriving DecidableEq, Repr

/-- The static role → permitted-action table hard-coded inside
`_check_permission` (source lines 931-936); an unknown role maps to the
empty list, matching `permissions.get(user_role, [])`. -/
def rolePermissions (role : String) : List String :=
  if role == "admin" then
    ["add_student", "record_attendance", "mark_graduated",
     "archive_student", "export_reports", "view_reports"]
  else if role == "staff" then
    ["add_student", "record_attendance", "mark_graduated",
     "export_reports", "view_reports"]
  else if role == "viewer" then
    ["export_reports", "view_reports"]
  else []

/-- `_check_permission` (source lines 923-939): `False` when no user is
authenticated, otherwise membership of the action in the role's list. -/
def check_permission (st : ProgState) (permission : String) : Bool :=
  match st.current_user with
  | none => false
  | some u => (rolePermissions u.role).contains permission

/-- The admin-identity gate shared by `get_users` and `delete_user`
(source lines 943, 964): `self.current_user` is set and its role is
exactly `admin`; this is the `manage_accounts` capability of the spec. -/
def allowsManageAccounts (st : ProgState) : Bool :=
  match st.current_user with
  | none => false
  | some u => u.role == "admin"

/-- `get_current_user` (source lines 167-169). -/
def get_current_user (st : ProgState) : Option User :=
  st.current_user

/-- `logout_user` (source lines 163-165). -/
def logout_user (st : ProgState) : ProgState :=
  { st with current_user := none }

/-- `authenticate_user` (source lines 132-161).  The user row is fetched
by username; on a hash match the stored row's `last_login` is updated
and `current_user` is set to the row as fetched (before the update),
exactly as `User(*row)` is built from the pre-update row.  On an unknown
username or a failed hash check the function returns `none` and leaves
the state untouched (in particular `current_user` keeps its old value). -/
def authenticate_user (verify : String → String → Bool) (now : Int)
    (st : ProgState) (username password : String) : Option User × ProgState :=
  match st.users.find? (fun u => u.username == username) with
  | none => (none, st)
  | some row =>
    if verify password row.password_hash then
      (some row,
       { st with
           users := st.users.map (fun u =>
             if u.id == row.id then { u with last_login := some now } else u),
           current_user := some row })
    else (none, st)

/-- `add_student` (source lines 171-188): gated by `add_student`; inserts
a row with `graduation_date` NULL, `created_date` defaulting to the
current date, `archived` FALSE and `archived_date` NULL. -/
def add_student (today : Int) (st : ProgState) (name phone email : String) :
    Except OpError (Nat × ProgState) :=
  if !check_permission st "add_student" then
    .error (.permissionDenied "add_student")
  else
    let sid := st.next_student_id
    .ok (sid,
      { st with
          students := st.students ++
            [{ id := sid, name := name, phone := phone, email := email,
               graduation_date := none, created_date := today,
               archived := false, archived_date := none }],
          next_student_id := sid + 1 })

/-- `record_attendance` (source lines 190-207): gated by
`record_attendance`; inserts the row dated today.  The source performs
no existence check on `student_id`, and the `PRAGMA foreign_keys = ON`
of `init_database` applies only to the init connection, so the insert
succeeds for any id. -/
def record_attendance (today : Int) (st : ProgState)
    (student_id step_number : Nat) (instructor : String) :
    Except OpError (Nat × ProgState) :=
  if !check_permission st "record_attendance" then
    .error (.permissionDenied "record_attendance")
  else
    let aid := st.next_attendance_id
    .ok (aid,
      { st with
          attendance := st.attendance ++
            [{ id := aid, student_id := student_id,
               step_number := step_number, instructor := instructor,
               date := today }],
          next_attendance_id := aid + 1 })

/-- `get_student_info` (source lines 228-244): fetch by id. -/
def get_student_info (st : ProgState) (student_id : Nat) : Option Student :=
  st.students.find? (fun s => s.id == student_id)

/-- The `SELECT COUNT(*) FROM attendance WHERE student_id = ? AND
date >= ?` of `check_graduation_eligibility` (source lines 300-304). -/
def attendance_count_since (st : ProgState) (student_id : Nat) (cutoff : Int) : Nat :=
  (st.attendance.filter
    (fun a => a.student_id == student_id && decide (cutoff ≤ a.date))).length

/-- `check_graduation_eligibility` (source lines 278-311): false for a
missing student; false when `graduation_date` is set and at most 730
days in the past; otherwise true iff at least 12 attendance records are
dated within the trailing 450 days. -/
def check_graduation_eligibility (today : Int) (st : ProgState)
    (student_id : Nat) : Bool :=
  match get_student_info st student_id with
  | none => false
  | some student =>
    if (match student.graduation_date with
        | some gd => decide (today - gd ≤ 730)
        | none => false) then
      false
    else
      decide (12 ≤ attendance_count_since st student_id (today - 450))

/-- `mark_as_graduated` (source lines 324-340): gated by
`mark_graduated`; `UPDATE students SET graduation_date = today WHERE id
= ?` — no existence check, a missing id updates nothing. -/
def mark_as_graduated (today : Int) (st : ProgState) (student_id : Nat) :
    Except OpError ProgState :=
  if !check_permission st "mark_graduated" then
    .error (.permissionDenied "mark_graduated")
  else
    .ok { st with
            students := st.students.map (fun s =>
              if s.id == student_id then { s with graduation_date := some today }
              else s) }

/-- `archive_student` (source lines 342-369): gated by `archive_student`;
`False` when the id is missing (the NotFound signal), `True` with no
write when already archived, otherwise sets `archived = 1` and
`archived_date = today`. -/
def archive_student (today : Int) (st : ProgState) (student_id : Nat) :
    Except OpError (Bool × ProgState) :=
  if !check_permission st "archive_student" then
    .error (.permissionDenied "archive_student")
  else
    match get_student_info st student_id with
    | none => .ok (false, st)
    | some student =>
      if student.archived then .ok (true, st)
      else
        .ok (true,
          { st with
              students := st.students.map (fun s =>
                if s.id == student_id then
                  { s with archived := true, archived_date := some today }
                else s) })

/-- `unarchive_student` (source lines 371-397): gated by
`archive_student`; `False` when the id is missing, `True` with no write
when already active, otherwise clears `archived` and `archived_date`. -/
def unarchive_student (st : ProgState) (student_id : Nat) :
    Except OpError (Bool × ProgState) :=
  if !check_permission st "archive_student" then
    .error (.permissionDenied "archive_student")
  else
    match get_student_info st student_id with
    | none => .ok (false, st)
    | some student =>
      if !student.archived then .ok (true, st)
      else
        .ok (true,
          { st with
              students := st.students.map (fun s =>
                if s.id == student_id then
                  { s with archived := false, archived_date := none }
                else s) })

/-- `find_students_to_archive` (source lines 801-837): gated by
`archive_student`; non-archived students with no attendance record on or
after `today - months_inactive * 30` and created strictly before that
threshold.  The source's SELECT lists `s.email, s.phone` (line 817)
while the `Student` dataclass order is `phone, email`, so the returned
objects carry the email value in `phone` and the phone value in `email`;
the final `map` reproduces that transposition. -/
def find_students_to_archive (today : Int) (st : ProgState)
    (months_inactive : Nat) : Except OpError (List Student) :=
  if !check_permission st "archive_student" then
    .error (.permissionDenied "archive_student")
  else
    let threshold : Int := today - (months_inactive : Int) * 30
    .ok ((st.students.filter (fun s =>
      !s.archived
      && !(st.attendance.any (fun a =>
            a.student_id == s.id && decide (threshold ≤ a.date)))
      && decide (s.created_date < threshold))).map (fun s =>
        { s with phone := s.email, email := s.phone }))

/-- The statistics dictionary returned by `auto_archive_inactive_students`
(source lines 863-869); the `archived_at` timestamp is formatting only
and omitted.  `skipped` is initialised to 0 and never incremented in the
source. -/
structure ArchiveStats where
  students_identified : Nat
  students_archived : Nat
  archiving_failed : Nat
  skipped : Nat
deriving DecidableEq, Repr

/-- One iteration of the archiving loop of
`auto_archive_inactive_students` (source lines 853-861): a `True` result
increments the archived count, a `False` result or a caught exception
increments the failed count; the loop never aborts. -/
def autoArchiveStep (today : Int) (acc : ProgState × Nat × Nat) (s : Student) :
    ProgState × Nat × Nat :=
  match archive_student today acc.1 s.id with
  | .error _ => (acc.1, acc.2.1, acc.2.2 + 1)
  | .ok (true, st2) => (st2, acc.2.1 + 1, acc.2.2)
  | .ok (false, st2) => (st2, acc.2.1, acc.2.2 + 1)

/-- `auto_archive_inactive_students` (source lines 839-869): gated by
`archive_student`; archives every candidate of
`find_students_to_archive` via `autoArchiveStep`. -/
def auto_archive_inactive_students (today : Int) (st : ProgState)
    (months_inactive : Nat) : Except OpError (ArchiveStats × ProgState) :=
  if !check_permission st "archive_student" then
    .error (.permissionDenied "archive_student")
  else
    match find_students_to_archive today st months_inactive with
    | .error e => .error e
    | .ok candidates =>
      let r := candidates.foldl (autoArchiveStep today) (st, 0, 0)
      .ok ({ students_identified := candidates.length,
             students_archived := r.2.1,
             archiving_failed := r.2.2,
             skipped := 0 }, r.1)

/-- The optional date filter shared by the report queries: the `WHERE`
fragment built from `start_date` / `end_date` (BETWEEN is inclusive);
with neither bound no date condition is emitted. -/
def dateCond (start_date end_date : Option Int) (d : Int) : Bool :=
  match start_date, end_date with
  | some s, some e => decide (s ≤ d) && decide (d ≤ e)
  | some s, none => decide (s ≤ d)
  | none, some e => decide (d ≤ e)
  | none, none => true

/-- Largest element of a date list (`MAX(a.date)`), `none` on no rows. -/
def maxDate : List Int → Option Int
  | [] => none
  | d :: ds =>
    match maxDate ds with
    | none => some d
    | some m => some (max d m)

/-- Smallest element of a date list (`MIN(a.date)`), `none` on no rows. -/
def minDate : List Int → Option Int
  | [] => none
  | d :: ds =>
    match minDate ds with
    | none => some d
    | some m => some (min d m)

/-- Row of the detailed attendance report (source lines 493-501). -/
structure DetailedRow where
  student_name : String
  email : String
  phone : String
  archived : Bool
  step_number : Nat
  instructor : String
  date : Int
deriving DecidableEq, Repr

/-- `get_detailed_attendance_report` (source lines 455-503).  No
permission check is performed.  Inner join of attendance with students;
the optional date filter and, when `include_archived` is false, the
`s.archived = 0` condition restrict the rows (for this inner join the
condition lands in the `ON` clause when no date filter produced a
`WHERE`, which is equivalent to filtering). -/
def get_detailed_attendance_report (st : ProgState)
    (start_date end_date : Option Int) (include_archived : Bool) :
    List DetailedRow :=
  st.attendance.filterMap (fun a =>
    match st.students.find? (fun s => s.id == a.student_id) with
    | none => none
    | some s =>
      if dateCond start_date end_date a.date && (include_archived || !s.archived)
      then
        some { student_name := s.name, email := s.email, phone := s.phone,
               archived := s.archived, step_number := a.step_number,
               instructor := a.instructor, date := a.date }
      else none)

/-- Row of the student progress report (source lines 545-554). -/
structure ProgressRow where
  student_id : Nat
  student_name : String
  email : String
  phone : String
  archived : Bool
  total_sessions : Nat
  last_attendance_date : Option Int
  first_attendance_date : Option Int
deriving DecidableEq, Repr

/-- `get_student_progress_report` (source lines 505-556).  No permission
check is performed.  `LEFT JOIN attendance ON s.id = a.student_id`,
grouped per student.  When a date filter is present it becomes a `WHERE`
on `a.date`, which a NULL-extended row never satisfies, so a student
with no matching attendance row produces no group; the appended
`AND s.archived = 0` then also sits in that `WHERE`.  When no date
filter is present there is no `WHERE`, so the appended
`AND s.archived = 0` becomes part of the join's `ON` condition: every
student still produces a group, an archived one merely joining no
attendance rows. -/
def get_student_progress_report (st : ProgState)
    (start_date end_date : Option Int) (include_archived : Bool) :
    List ProgressRow :=
  if start_date.isSome || end_date.isSome then
    st.students.filterMap (fun s =>
      let rows := st.attendance.filter (fun a =>
        a.student_id == s.id && dateCond start_date end_date a.date
          && (include_archived || !s.archived))
      if rows.length == 0 then none
      else
        some { student_id := s.id, student_name := s.name, email := s.email,
               phone := s.phone, archived := s.archived,
               total_sessions := rows.length,
               last_attendance_date := maxDate (rows.map (fun a => a.date)),
               first_attendance_date := minDate (rows.map (fun a => a.date)) })
  else
    st.students.map (fun s =>
      let rows := st.attendance.filter (fun a =>
        a.student_id == s.id && (include_archived || !s.archived))
      { student_id := s.id, student_name := s.name, email := s.email,
        phone := s.phone, archived := s.archived,
        total_sessions := rows.length,
        last_attendance_date := maxDate (rows.map (fun a => a.date)),
        first_attendance_date := minDate (rows.map (fun a => a.date)) })

/-- Row of the instructor performance report (source lines 593-600). -/
structure InstructorRow where
  instructor : String
  total_sessions : Nat
  unique_students : Nat
  first_session_date : Option Int
  last_session_date : Option Int
deriving DecidableEq, Repr

/-- `get_instructor_report` (source lines 558-602).  No permission check
is performed; the `include_archived` parameter exists in the source
signature but is never used by the query; grouped by instructor. -/
def get_instructor_report (st : ProgState)
    (start_date end_date : Option Int) (include_archived : Bool) :
    List InstructorRow :=
  let rows := st.attendance.filter (fun a => dateCond start_date end_date a.date)
  ((rows.map (fun a => a.instructor)).eraseDups).map (fun ins =>
    let irows := rows.filter (fun a => a.instructor == ins)
    { instructor := ins, total_sessions := irows.length,
      unique_students := ((irows.map (fun a => a.student_id)).eraseDups).length,
      first_session_date := minDate (irows.map (fun a => a.date)),
      last_session_date := maxDate (irows.map (fun a => a.date)) })

/-- Row of the graduation eligibility report (source lines 640-649). -/
structure GradRow where
  student_id : Nat
  student_name : String
  email : String
  phone : String
  sessions_attended : Nat
  last_session_date : Option Int
  first_session_date : Option Int
  archived : Bool
deriving DecidableEq, Repr

/-- The `WHERE` condition of `get_graduation_eligibility_report` (source
lines 622-624, 628-629) with SQL operator precedence: `AND` binds
tighter than `OR`, so the unparenthesised
`a.date >= ? AND s.graduation_date IS NULL OR s.graduation_date < ?`
parses as `(a.date >= window AND graduation_date IS NULL) OR
graduation_date < old-cutoff`, and the ` AND s.archived = 0` appended
when archived students are excluded attaches to the second disjunct
only.  A NULL `graduation_date` makes the `<` comparison not true. -/
def gradReportRowCond (today : Int) (include_archived : Bool)
    (s : Student) (a : AttendanceRecord) : Bool :=
  let windowAndNull := decide (today - 450 ≤ a.date) && s.graduation_date.isNone
  let gradOld :=
    match s.graduation_date with
    | some gd => decide (gd < today - 730)
    | none => false
  if include_archived then windowAndNull || gradOld
  else windowAndNull || (gradOld && !s.archived)

/-- `get_graduation_eligibility_report` (source lines 604-651).  No
permission check is performed.  Inner join of students with attendance,
rows restricted by `gradReportRowCond`, grouped per student,
`HAVING COUNT(a.id) >= 12`. -/
def get_graduation_eligibility_report (today : Int) (st : ProgState)
    (include_archived : Bool) : List GradRow :=
  st.students.filterMap (fun s =>
    let rows := st.attendance.filter (fun a =>
      a.student_id == s.id && gradReportRowCond today include_archived s a)
    if 12 ≤ rows.length then
      some { student_id := s.id, student_name := s.name, email := s.email,
             phone := s.phone, sessions_attended := rows.length,
             last_session_date := maxDate (rows.map (fun a => a.date)),
             first_session_date := minDate (rows.map (fun a => a.date)),
             archived := s.archived }
    else none)

/-- The dictionary returned by `get_attendance_summary` (source lines
447-453). -/
structure SummaryStats where
  total_students : Nat
  active_students : Nat
  archived_students : Nat
  students_with_attendance : Nat
  students_eligible_for_graduation : Nat
deriving DecidableEq, Repr

/-- `get_attendance_summary` (source lines 399-453).  No permission check
is performed.  The eligibility count uses the properly parenthesised
query of lines 426-441: a windowed attendance count of at least 12, and
`graduation_date` NULL or older than 730 days, and not archived. -/
def get_attendance_summary (today : Int) (st : ProgState) : SummaryStats :=
  { total_students := st.students.length,
    active_students := (st.students.filter (fun s => !s.archived)).length,
    archived_students := (st.students.filter (fun s => s.archived)).length,
    students_with_attendance :=
      (((st.attendance.filter (fun a => decide (today - 450 ≤ a.date))).map
        (fun a => a.student_id)).eraseDups).length,
    students_eligible_for_graduation :=
      (st.students.filter (fun s =>
        decide (12 ≤ attendance_count_since st s.id (today - 450))
        && (match s.graduation_date with
            | none => true
            | some gd => decide (gd < today - 730))
        && !s.archived)).length }

/-- `get_report_summary` (source lines 753-769): gated by `view_reports`;
returns the summary statistics (the `generated_at` timestamp and the
constant list of report type names are formatting only and omitted). -/
def get_report_summary (today : Int) (st : ProgState) :
    Except OpError SummaryStats :=
  if !check_permission st "view_reports" then
    .error (.permissionDenied "view_reports")
  else
    .ok (get_attendance_summary today st)

/-- The report data produced by an export, one constructor per report
type dispatched on lines 667-676 of the source. -/
inductive ReportData where
  | detailed (rows : List DetailedRow)
  | progress (rows : List ProgressRow)
  | instructorPerf (rows : List InstructorRow)
  | gradEligible (rows : List GradRow)
deriving DecidableEq, Repr

/-- The shared body of the three export operations (source lines 654-751):
gate on `export_reports`, then dispatch on the report type, raising
`ValueError` on an unknown type.  Serialisation of the resulting rows to
CSV / JSON / Excel bytes and the file write are outside the core. -/
def export_report_data (today : Int) (st : ProgState) (report_type : String)
    (start_date end_date : Option Int) (include_archived : Bool) :
    Except OpError ReportData :=
  if !check_permission st "export_reports" then
    .error (.permissionDenied "export_reports")
  else if report_type == "detailed_attendance" then
    .ok (.detailed (get_detailed_attendance_report st start_date end_date include_archived))
  else if report_type == "student_progress" then
    .ok (.progress (get_student_progress_report st start_date end_date include_archived))
  else if report_type == "instructor_performance" then
    .ok (.instructorPerf (get_instructor_report st start_date end_date include_archived))
  else if report_type == "graduation_eligible" then
    .ok (.gradEligible (get_graduation_eligibility_report today st include_archived))
  else
    .error (.valueError report_type)

/-- `export_to_csv` (source lines 654-686): permission gate and report
dispatch; the CSV writer itself is an external formatter. -/
def export_to_csv (today : Int) (st : ProgState) (report_type : String)
    (start_date end_date : Option Int) (include_archived : Bool) :
    Except OpError ReportData :=
  export_report_data today st report_type start_date end_date include_archived

/-- `export_to_json` (source lines 688-716): identical gate and dispatch;
the JSON serialiser is an external formatter. -/
def export_to_json (today : Int) (st : ProgState) (report_type : String)
    (start_date end_date : Option Int) (include_archived : Bool) :
    Except OpError ReportData :=
  export_report_data today st report_type start_date end_date include_archived

/-- `export_to_excel` (source lines 718-751): identical gate and
dispatch; the spreadsheet writer is an external formatter. -/
def export_to_excel (today : Int) (st : ProgState) (report_type : String)
    (start_date end_date : Option Int) (include_archived : Bool) :
    Except OpError ReportData :=
  export_report_data today st report_type start_date end_date include_archived

/-- `get_users` (source lines 941-960): admin-identity gate, then all
user rows. -/
def get_users (st : ProgState) : Except OpError (List User) :=
  if !allowsManageAccounts st then
    .error (.permissionDenied "manage_accounts")
  else
    .ok st.users

/-- `delete_user` (source lines 962-977): admin-identity gate, then
`DELETE FROM users WHERE id = ?`. -/
def delete_user (st : ProgState) (user_id : Nat) :
    Except OpError (Bool × ProgState) :=
  if !allowsManageAccounts st then
    .error (.permissionDenied "manage_accounts")
  else
    .ok (true, { st with users := st.users.filter (fun u => !(u.id == user_id)) })

/-- Row of the auto-archive report (source lines 897-904): for students
who never attended, `last_attendance_date` is NULL (the source renders
the string "Never") and `days_since_last_attendance` stays unset. -/
structure AutoArchiveRow where
  student_id : Nat
  student_name : String
  email : String
  phone : String
  last_attendance_date : Option Int
  days_since_last_attendance : Option Int
deriving DecidableEq, Repr

/-- The dictionary returned by `get_auto_archive_report` (source lines
916-921); the `generated_at` timestamp is formatting only and omitted. -/
structure AutoArchiveReport where
  months_inactive_threshold : Nat
  students_to_archive : Nat
  students_info : List AutoArchiveRow
deriving DecidableEq, Repr

/-- `get_auto_archive_report` (source lines 871-921): gated by
`view_reports`; lists the candidates of `find_students_to_archive`
(whose own `archive_student` gate propagates) with each student's
`MAX(date)` over their attendance and the days elapsed since it. -/
def get_auto_archive_report (today : Int) (st : ProgState)
    (months_inactive : Nat) : Except OpError AutoArchiveReport :=
  if !check_permission st "view_reports" then
    .error (.permissionDenied "view_reports")
  else
    match find_students_to_archive today st months_inactive with
    | .error e => .error e
    | .ok cands =>
      let infos := cands.map (fun s =>
        let lastd := maxDate ((st.attendance.filter
          (fun a => a.student_id == s.id)).map (fun a => a.date))
        { student_id := s.id, student_name := s.name, email := s.email,
          phone := s.phone, last_attendance_date := lastd,
          days_since_last_attendance := lastd.map (fun d => today - d) })
      .ok { months_inactive_threshold := months_inactive,
            students_to_archive := infos.length,
            students_info := infos }

/-- The student-mutating operations of the Domain Service, as an
operation alphabet for stating state-invariant preservation. -/
inductive Op where
  | addStudentOp (today : Int) (name phone email : String)
  | markGraduatedOp (today : Int) (student_id : Nat)
  | archiveOp (today : Int) (student_id : Nat)
  | unarchiveOp (student_id : Nat)
  | autoArchiveOp (today : Int) (months_inactive : Nat)
deriving DecidableEq, Repr

/-- Run one operation; a raised `PermissionError` leaves the store as it
was (the source raises before opening a connection). -/
def applyOp (st : ProgState) : Op → ProgState
  | .addStudentOp t n p e =>
    match add_student t st n p e with
    | .ok r => r.2
    | .error _ => st
  | .markGraduatedOp t sid =>
    match mark_as_graduated t st sid with
    | .ok st2 => st2
    | .error _ => st
  | .archiveOp t sid =>
    match archive_student t st sid with
    | .ok r => r.2
    | .error _ => st
  | .unarchiveOp sid =>
    match unarchive_student st sid with
    | .ok r => r.2
    | .error _ => st
  | .autoArchiveOp t m =>
    match auto_archive_inactive_students t st m with
    | .ok r => r.2
    | .error _ => st

/-- Run a sequence of operations left to right. -/
def runOps (st : ProgState) (ops : List Op) : ProgState :=
  ops.foldl applyOp st

/-- The data-model invariant of the spec: a student is archived exactly
when an `archived_date` is recorded. -/
def archivedDateInv (st : ProgState) : Prop :=
  ∀ s ∈ st.students, (s.archived = true ↔ s.archived_date ≠ none)

/-- Example account fixtures. -/
def exAdminUser : User :=
  { id := 1, username := "admin_user", password_hash := "h1",
    role := "admin", created_date := 0, last_login := none }

def exStaffUser : User :=
  { id := 2, username := "staff_user", password_hash := "h2",
    role := "staff", created_date := 0, last_login := none }

def exViewerUser : User :=
  { id := 3, username := "viewer_user", password_hash := "h3",
    role := "viewer", created_date := 0, last_login := none }

/-- Example student fixtures. -/
def exArchivedStudent : Student :=
  { id := 1, name := "Alice", phone := "", email := "",
    graduation_date := none, created_date := 0,
    archived := true, archived_date := some 10 }

def exActiveStudent : Student :=
  { id := 2, name := "Bob", phone := "", email := "",
    graduation_date := none, created_date := 0,
    archived := false, archived_date := none }

/-- A state with no authenticated user, one active student and one
attendance record. -/
def exAnonState : ProgState :=
  { students := [exActiveStudent],
    attendance := [{ id := 1, student_id := 2, step_number := 1,
                     instructor := "T", date := 900 }],
    users := [exAdminUser], current_user := none,
    next_student_id := 3, next_attendance_id := 2 }

/-- A state authenticated as the admin account. -/
def exAdminState : ProgState :=
  { students := [], attendance := [], users := [exAdminUser],
    current_user := some exAdminUser,
    next_student_id := 1, next_attendance_id := 1 }

/-- A state authenticated as the staff account. -/
def exStaffState : ProgState :=
  { students := [], attendance := [], users := [exStaffUser],
    current_user := some exStaffUser,
    next_student_id := 1, next_attendance_id := 1 }

/-- A state authenticated as the viewer account. -/
def exViewerState : ProgState :=
  { students := [], attendance := [], users := [exViewerUser],
    current_user := some exViewerUser,
    next_student_id := 1, next_attendance_id := 1 }

/-- A state whose session already holds the admin account; its user
table contains only that account. -/
def exLoggedInState : ProgState :=
  { students := [], attendance := [], users := [exAdminUser],
    current_user := some exAdminUser,
    next_student_id := 1, next_attendance_id := 1 }

/-- One student with no graduation date and 12 attendance records dated
day 600 (inside the 450-day window of day 1000). -/
def exC2State : ProgState :=
  { students := [{ id := 1, name := "Carl", phone := "", email := "",
                   graduation_date := none, created_date := 0,
                   archived := false, archived_date := none }],
    attendance := (List.range 12).map (fun i =>
      { id := i + 1, student_id := 1, step_number := i + 1,
        instructor := "T", date := 600 }),
    users := [], current_user := none,
    next_student_id := 2, next_attendance_id := 13 }

/-- One non-archived student graduated on day 200 (800 days before day
1000) with 12 attendance records dated day 500, all outside the 450-day
window of day 1000 (cutoff day 550). -/
def exC4State : ProgState :=
  { students := [{ id := 1, name := "Dora", phone := "", email := "",
                   graduation_date := some 200, created_date := 0,
                   archived := false, archived_date := none }],
    attendance := (List.range 12).map (fun i =>
      { id := i + 1, student_id := 1, step_number := 1,
        instructor := "T", date := 500 }),
    users := [], current_user := none,
    next_student_id := 2, next_attendance_id := 13 }

/-- One archived student and no attendance records. -/
def exC7State : ProgState :=
  { students := [{ id := 1, name := "Eve", phone := "", email := "",
                   graduation_date := none, created_date := 0,
                   archived := true, archived_date := some 10 }],
    attendance := [], users := [], current_user := none,
    next_student_id := 2, next_attendance_id := 1 }

/-- An admin session over a store holding one archived and one active
student. -/
def exC10State : ProgState :=
  { students := [exArchivedStudent, exActiveStudent],
    attendance := [], users := [exAdminUser],
    current_user := some exAdminUser,
    next_student_id := 3, next_attendance_id := 1 }

/-- C9: the permission evaluation satisfies the static role table: a
viewer session is denied `add_student`; a staff session is allowed
`add_student` and `export_reports` but denied account management
(listing accounts fails); an admin session is allowed every listed
action, account management included. -/
theorem c9_permission_table :
    check_permission exViewerState "add_student" = false ∧
    check_permission exStaffState "add_student" = true ∧
    check_permission exStaffState "export_reports" = true ∧
    allowsManageAccounts exStaffState = false ∧
    get_users exStaffState = .error (.permissionDenied "manage_accounts") ∧
    check_permission exAdminState "add_student" = true ∧
    check_permission exAdminState "record_attendance" = true ∧
    check_permission exAdminState "mark_graduated" = true ∧
    check_permission exAdminState "archive_student" = true ∧
    check_permission exAdminState "export_reports" = true ∧
    check_permission exAdminState "view_reports" = true ∧
    allowsManageAccounts exAdminState = true ∧
    get_users exAdminState = .ok [exAdminUser] :=
  ⟨rfl, rfl, rfl, rfl, rfl, rfl, rfl, rfl, rfl, rfl, rfl, rfl, rfl⟩

/-- C10: with the `archive_student` permission granted, archiving an
already-archived student and unarchiving an already-active student both
return success with the state (hence `archived_date` and every other
field) unchanged, and both operations return the NotFound signal
(`False`) on a student id absent from the store, again without change. -/
theorem c10_archive_idempotence_notfound (today : Int) (st : ProgState)
    (student_id : Nat)
    (hperm : check_permission st "archive_student" = true) :
    (∀ s, get_student_info st student_id = some s → s.archived = true →
      archive_student today st student_id = .ok (true, st)) ∧
    (∀ s, get_student_info st student_id = some s → s.archived = false →
      unarchive_student st student_id = .ok (true, st)) ∧
    (get_student_info st student_id = none →
      archive_student today st student_id = .ok (false, st) ∧
      unarchive_student st student_id = .ok (false, st)) := by
  refine ⟨?_, ?_, ?_⟩
  · intro s hs ha
    simp [archive_student, hperm, hs, ha]
  · intro s hs ha
    simp [unarchive_student, hperm, hs, ha]
  · intro hn
    exact ⟨by simp [archive_student, hperm, hn],
           by simp [unarchive_student, hperm, hn]⟩

/-- Witness for C10 at a concrete admin session: student 1 is archived,
student 2 is active, id 99 is absent. -/
theorem c10_archive_idempotence_notfound_witness :
    archive_student 50 exC10State 1 = .ok (true, exC10State) ∧
    unarchive_student exC10State 2 = .ok (true, exC10State) ∧
    archive_student 50 exC10State 99 = .ok (false, exC10State) ∧
    unarchive_student exC10State 99 = .ok (false, exC10State) :=
  ⟨(c10_archive_idempotence_notfound 50 exC10State 1 (by decide)).1
      exArchivedStudent (by decide) (by decide),
   (c10_archive_idempotence_notfound 50 exC10State 2 (by decide)).2.1
      exActiveStudent (by decide) (by decide),
   ((c10_archive_idempotence_notfound 50 exC10State 99 (by decide)).2.2
      (by decide)).1,
   ((c10_archive_idempotence_notfound 50 exC10State 99 (by decide)).2.2
      (by decide)).2⟩

/-- C2: for every student present in the store, the graduation
eligibility check returns true exactly when at least 12 attendance
records fall within the trailing 450 days and the graduation date is
unset or lies more than 730 days before today. -/
theorem c2_eligibility_iff (today : Int) (st : ProgState) (student_id : Nat)
    (student : Student)
    (hs : get_student_info st student_id = some student) :
    (check_graduation_eligibility today st student_id = true ↔
      (12 ≤ attendance_count_since st student_id (today - 450) ∧
       (student.graduation_date = none ∨
        ∃ gd, student.graduation_date = some gd ∧ 730 < today - gd))) := by
  unfold check_graduation_eligibility
  rw [hs]
  rcases hgd : student.graduation_date with _ | gd <;> simp only [hgd]
  · simp
  · by_cases h : today - gd ≤ 730
    · rw [if_pos (by simpa using h)]
      simp only [Bool.false_eq_true, false_iff, not_and]
      intro _
      rintro (hno | ⟨gd2, hgd2, hlt⟩)
      · exact Option.noConfusion hno
      · injection hgd2 with h2
        omega
    · rw [if_neg (by simpa using h)]
      have h2 : 730 < today - gd := by omega
      simp [h2]

/-- Witness for C2: in `exC2State` at day 1000, student 1 (12 records in
the window, no graduation date) is eligible. -/
theorem c2_eligibility_iff_witness :
    check_graduation_eligibility 1000 exC2State 1 = true :=
  (c2_eligibility_iff 1000 exC2State 1
      { id := 1, name := "Carl", phone := "", email := "",
        graduation_date := none, created_date := 0,
        archived := false, archived_date := none }
      (by decide)).mpr (by decide)

/-- C4 evaluated at its failing input: in `exC4State` at day 1000 the
graduation-eligibility report lists student 1, yet
`check_graduation_eligibility` rejects that student (no attendance in
the 450-day window).  The unparenthesised SQL `WHERE` of the report
(`a.date >= ? AND s.graduation_date IS NULL OR s.graduation_date < ?`)
lets `graduation_date < cutoff` alone admit all 12 out-of-window rows. -/
theorem c4_report_vs_engine_failing :
    ((get_graduation_eligibility_report 1000 exC4State true).map
      (fun r => r.student_id)) = [1] ∧
    check_graduation_eligibility 1000 exC4State 1 = false := by
  exact ⟨by decide, by decide⟩

/-- C7 evaluated at its failing input: one archived student, no date
filter, archived students excluded — the progress report still returns a
row for the archived student (the appended `AND s.archived = 0` lands in
the LEFT JOIN's `ON` clause when no date filter opened a `WHERE`), while
the number of students matching the archived-inclusion filter is 0. -/
theorem c7_progress_filter_failing :
    ((get_student_progress_report exC7State none none false).map
      (fun r => r.student_id)) = [1] ∧
    (exC7State.students.filter (fun s => !s.archived)).length = 0 := by
  exact ⟨by decide, by decide⟩

/-- C8 evaluated at its failing input: a staff session records attendance
for the absent student id 999; the insert succeeds and the resulting
store holds an attendance record whose student id resolves to no
student.  (The `FOREIGN KEY` declared in the schema is not enforced:
`PRAGMA foreign_keys = ON` is issued only on the init connection.) -/
theorem c8_orphan_attendance_failing :
    get_student_info exStaffState 999 = none ∧
    record_attendance 0 exStaffState 999 1 "T" =
      .ok (1, { exStaffState with
                  attendance := [{ id := 1, student_id := 999, step_number := 1,
                                   instructor := "T", date := 0 }],
                  next_attendance_id := 2 }) ∧
    (match record_attendance 0 exStaffState 999 1 "T" with
     | .ok r => r.2.attendance.any (fun a => a.student_id == 999)
         && r.2.students.all (fun s => !(s.id == 999))
     | .error _ => false) = true := by
  refine ⟨by decide, rfl, by decide⟩

/-- Counterexample to C5: the session holds the admin account; a login
attempt with an unknown username fails, yet the current user afterwards
is still the admin account, not none. -/
theorem c5_failed_login_counterexample :
    (authenticate_user (fun _ _ => false) 0 exLoggedInState "ghost" "pw").1 =
      none ∧
    get_current_user
      (authenticate_user (fun _ _ => false) 0 exLoggedInState "ghost" "pw").2 =
      some exAdminUser := by
  exact ⟨by decide, by decide⟩

/-- C5 as amended: a failed login attempt (unknown username or
non-matching password) leaves the whole state — in particular the
session — unchanged, and a successful login replaces any prior session
with the account whose credentials matched. -/
theorem c5_session_transitions (verify : String → String → Bool) (now : Int)
    (st : ProgState) (username password : String) :
    ((authenticate_user verify now st username password).1 = none →
      (authenticate_user verify now st username password).2 = st) ∧
    (∀ u, (authenticate_user verify now st username password).1 = some u →
      get_current_user
        (authenticate_user verify now st username password).2 = some u) := by
  unfold authenticate_user
  cases hf : st.users.find? (fun u => u.username == username) with
  | none => simp [get_current_user]
  | some row =>
    by_cases hv : verify password row.password_hash
    · simp [hv, get_current_user]
    · simp [hv]

/-- Witness for C5 as amended: a failed attempt against the logged-in
admin state returns the state unchanged; a successful attempt sets the
session to the matched account. -/
theorem c5_session_transitions_witness :
    (authenticate_user (fun _ _ => false) 0 exLoggedInState "ghost" "pw").2 =
      exLoggedInState ∧
    get_current_user
      (authenticate_user (fun _ _ => true) 5 exLoggedInState
        "admin_user" "pw").2 = some exAdminUser :=
  ⟨(c5_session_transitions (fun _ _ => false) 0 exLoggedInState "ghost" "pw").1
      (by decide),
   (c5_session_transitions (fun _ _ => true) 5 exLoggedInState
      "admin_user" "pw").2 exAdminUser (by decide)⟩

/-- Counterexample to C1: with no authenticated user the session's role
does not permit `view_reports`, yet the detailed attendance report (a
report-producing operation) performs no permission check and returns its
data rows instead of raising PermissionDenied. -/
theorem c1_ungated_report_counterexample :
    check_permission exAnonState "view_reports" = false ∧
    get_detailed_attendance_report exAnonState none none true =
      [{ student_name := "Bob", email := "", phone := "", archived := false,
         step_number := 1, instructor := "T", date := 900 }] := by
  exact ⟨by decide, by decide⟩

/-- C1 as amended: only `get_report_summary` and the auto-archive report
`get_auto_archive_report` are gated by `view_reports`; each export
operation (CSV, JSON, Excel) is gated by `export_reports` alone; the
four dataset report functions perform no permission check at all — their
output does not depend on the session in any way. -/
theorem c1_report_gating (today : Int) (st : ProgState)
    (start_date end_date : Option Int) (include_archived : Bool)
    (report_type : String) (u : Option User) (months_inactive : Nat) :
    (check_permission st "view_reports" = false →
      get_report_summary today st =
        .error (.permissionDenied "view_reports") ∧
      get_auto_archive_report today st months_inactive =
        .error (.permissionDenied "view_reports")) ∧
    (check_permission st "export_reports" = false →
      export_to_csv today st report_type start_date end_date include_archived =
        .error (.permissionDenied "export_reports") ∧
      export_to_json today st report_type start_date end_date include_archived =
        .error (.permissionDenied "export_reports") ∧
      export_to_excel today st report_type start_date end_date include_archived =
        .error (.permissionDenied "export_reports")) ∧
    (get_detailed_attendance_report { st with current_user := u }
        start_date end_date include_archived =
      get_detailed_attendance_report st start_date end_date include_archived ∧
     get_student_progress_report { st with current_user := u }
        start_date end_date include_archived =
      get_student_progress_report st start_date end_date include_archived ∧
     get_instructor_report { st with current_user := u }
        start_date end_date include_archived =
      get_instructor_report st start_date end_date include_archived ∧
     get_graduation_eligibility_report today { st with current_user := u }
        include_archived =
      get_graduation_eligibility_report today st include_archived) := by
  refine ⟨?_, ?_, rfl, rfl, rfl, rfl⟩
  · intro h
    exact ⟨by simp [get_report_summary, h],
           by simp [get_auto_archive_report, h]⟩
  · intro h
    refine ⟨?_, ?_, ?_⟩ <;>
      simp [export_to_csv, export_to_json, export_to_excel,
        export_report_data, h]

/-- Witness for C1 as amended at the unauthenticated state. -/
theorem c1_report_gating_witness :
    get_report_summary 0 exAnonState =
      .error (.permissionDenied "view_reports") ∧
    get_auto_archive_report 0 exAnonState 24 =
      .error (.permissionDenied "view_reports") ∧
    export_to_csv 0 exAnonState "student_progress" none none true =
      .error (.permissionDenied "export_reports") :=
  ⟨((c1_report_gating 0 exAnonState none none true "student_progress" none
      24).1 (by decide)).1,
   ((c1_report_gating 0 exAnonState none none true "student_progress" none
      24).1 (by decide)).2,
   (((c1_report_gating 0 exAnonState none none true "student_progress" none
      24).2.1 (by decide)).1)⟩

/-- C3: every gated operation invoked while no account is authenticated
raises PermissionDenied carrying the gated action, before any read or
write of the store (the error result carries no successor state; the
source raises before opening a database connection). -/
theorem c3_unauthenticated_denied (today : Int) (st : ProgState)
    (name phone email instructor report_type : String)
    (student_id step_number months_inactive : Nat)
    (start_date end_date : Option Int) (include_archived : Bool)
    (h : st.current_user = none) :
    add_student today st name phone email =
      .error (.permissionDenied "add_student") ∧
    record_attendance today st student_id step_number instructor =
      .error (.permissionDenied "record_attendance") ∧
    mark_as_graduated today st student_id =
      .error (.permissionDenied "mark_graduated") ∧
    archive_student today st student_id =
      .error (.permissionDenied "archive_student") ∧
    unarchive_student st student_id =
      .error (.permissionDenied "archive_student") ∧
    find_students_to_archive today st months_inactive =
      .error (.permissionDenied "archive_student") ∧
    auto_archive_inactive_students today st months_inactive =
      .error (.permissionDenied "archive_student") ∧
    export_to_csv today st report_type start_date end_date include_archived =
      .error (.permissionDenied "export_reports") ∧
    export_to_json today st report_type start_date end_date include_archived =
      .error (.permissionDenied "export_reports") ∧
    export_to_excel today st report_type start_date end_date include_archived =
      .error (.permissionDenied "export_reports") ∧
    get_report_summary today st =
      .error (.permissionDenied "view_reports") := by
  have hc : ∀ p, check_permission st p = false := by
    intro p
    simp [check_permission, h]
  refine ⟨?_, ?_, ?_, ?_, ?_, ?_, ?_, ?_, ?_, ?_, ?_⟩ <;>
    simp [add_student, record_attendance, mark_as_graduated, archive_student,
      unarchive_student, find_students_to_archive,
      auto_archive_inactive_students, export_to_csv, export_to_json,
      export_to_excel, export_report_data, get_report_summary, hc]

/-- Witness for C3 at the unauthenticated state with concrete arguments. -/
theorem c3_unauthenticated_denied_witness :
    add_student 0 exAnonState "N" "" "" =
      .error (.permissionDenied "add_student") ∧
    record_attendance 0 exAnonState 2 1 "T" =
      .error (.permissionDenied "record_attendance") ∧
    mark_as_graduated 0 exAnonState 2 =
      .error (.permissionDenied "mark_graduated") ∧
    archive_student 0 exAnonState 2 =
      .error (.permissionDenied "archive_student") ∧
    unarchive_student exAnonState 2 =
      .error (.permissionDenied "archive_student") ∧
    find_students_to_archive 0 exAnonState 24 =
      .error (.permissionDenied "archive_student") ∧
    auto_archive_inactive_students 0 exAnonState 24 =
      .error (.permissionDenied "archive_student") ∧
    export_to_csv 0 exAnonState "graduation_eligible" none none true =
      .error (.permissionDenied "export_reports") ∧
    export_to_json 0 exAnonState "graduation_eligible" none none true =
      .error (.permissionDenied "export_reports") ∧
    export_to_excel 0 exAnonState "graduation_eligible" none none true =
      .error (.permissionDenied "export_reports") ∧
    get_report_summary 0 exAnonState =
      .error (.permissionDenied "view_reports") :=
  c3_unauthenticated_denied 0 exAnonState "N" "" "" "T" "graduation_eligible"
    2 1 24 none none true rfl

/-- `add_student` inserts a non-archived student with no archived date,
so it preserves the archived/archived-date invariant. -/
theorem add_student_inv (today : Int) (st : ProgState) (n p e : String)
    (h : archivedDateInv st) {r : Nat × ProgState}
    (hr : add_student today st n p e = .ok r) : archivedDateInv r.2 := by
  cases hp : check_permission st "add_student"
  · simp [add_student, hp] at hr
  · simp only [add_student, hp, Bool.not_true, Bool.false_eq_true,
      if_false, Except.ok.injEq] at hr
    subst hr
    intro s hs
    rcases List.mem_append.mp hs with hmem | hmem
    · exact h s hmem
    · simp only [List.mem_singleton] at hmem
      subst hmem
      simp

/-- `mark_as_graduated` touches only `graduation_date`, so it preserves
the archived/archived-date invariant. -/
theorem mark_as_graduated_inv (today : Int) (st : ProgState) (sid : Nat)
    (h : archivedDateInv st) {st2 : ProgState}
    (hr : mark_as_graduated today st sid = .ok st2) : archivedDateInv st2 := by
  cases hp : check_permission st "mark_graduated"
  · simp [mark_as_graduated, hp] at hr
  · simp only [mark_as_graduated, hp, Bool.not_true, Bool.false_eq_true,
      if_false, Except.ok.injEq] at hr
    subst hr
    intro s hs
    simp only [List.mem_map] at hs
    obtain ⟨s0, hs0, rfl⟩ := hs
    by_cases he : (s0.id == sid) = true
    · rw [if_pos he]
      exact h s0 hs0
    · rw [if_neg he]
      exact h s0 hs0

/-- `archive_student` either leaves the store unchanged or sets
`archived` together with `archived_date`, preserving the invariant. -/
theorem archive_student_inv (today : Int) (st : ProgState) (sid : Nat)
    (h : archivedDateInv st) {r : Bool × ProgState}
    (hr : archive_student today st sid = .ok r) : archivedDateInv r.2 := by
  cases hp : check_permission st "archive_student"
  · simp [archive_student, hp] at hr
  · simp only [archive_student, hp, Bool.not_true, Bool.false_eq_true,
      if_false] at hr
    cases hi : get_student_info st sid with
    | none =>
      simp only [hi, Except.ok.injEq] at hr
      subst hr
      exact h
    | some student =>
      simp only [hi] at hr
      by_cases ha : student.archived = true
      · rw [if_pos ha] at hr
        simp only [Except.ok.injEq] at hr
        subst hr
        exact h
      · rw [if_neg ha] at hr
        simp only [Except.ok.injEq] at hr
        subst hr
        intro s hs
        simp only [List.mem_map] at hs
        obtain ⟨s0, hs0, rfl⟩ := hs
        by_cases he : (s0.id == sid) = true
        · rw [if_pos he]
          simp
        · rw [if_neg he]
          exact h s0 hs0

/-- `unarchive_student` either leaves the store unchanged or clears
`archived` together with `archived_date`, preserving the invariant. -/
theorem unarchive_student_inv (st : ProgState) (sid : Nat)
    (h : archivedDateInv st) {r : Bool × ProgState}
    (hr : unarchive_student st sid = .ok r) : archivedDateInv r.2 := by
  cases hp : check_permission st "archive_student"
  · simp [unarchive_student, hp] at hr
  · simp only [unarchive_student, hp, Bool.not_true, Bool.false_eq_true,
      if_false] at hr
    cases hi : get_student_info st sid with
    | none =>
      simp only [hi, Except.ok.injEq] at hr
      subst hr
      exact h
    | some student =>
      simp only [hi] at hr
      by_cases ha : (!student.archived) = true
      · rw [if_pos ha] at hr
        simp only [Except.ok.injEq] at hr
        subst hr
        exact h
      · rw [if_neg ha] at hr
        simp only [Except.ok.injEq] at hr
        subst hr
        intro s hs
        simp only [List.mem_map] at hs
        obtain ⟨s0, hs0, rfl⟩ := hs
        by_cases he : (s0.id == sid) = true
        · rw [if_pos he]
          simp
        · rw [if_neg he]
          exact h s0 hs0

/-- One auto-archive loop iteration preserves the invariant. -/
theorem autoArchiveStep_inv (today : Int) (acc : ProgState × Nat × Nat)
    (s : Student) (h : archivedDateInv acc.1) :
    archivedDateInv (autoArchiveStep today acc s).1 := by
  rcases hr : archive_student today acc.1 s.id with e | ⟨b, st2⟩
  · simp only [autoArchiveStep, hr]
    exact h
  · have h2 : archivedDateInv st2 :=
      archive_student_inv today acc.1 s.id h hr
    cases b <;> simp only [autoArchiveStep, hr] <;> exact h2

/-- The whole auto-archive loop preserves the invariant. -/
theorem autoArchive_foldl_inv (today : Int) :
    ∀ (cands : List Student) (acc : ProgState × Nat × Nat),
      archivedDateInv acc.1 →
      archivedDateInv (cands.foldl (autoArchiveStep today) acc).1 := by
  intro cands
  induction cands with
  | nil =>
    intro acc h
    exact h
  | cons c cs ih =>
    intro acc h
    exact ih _ (autoArchiveStep_inv today acc c h)

/-- `auto_archive_inactive_students` preserves the invariant. -/
theorem auto_archive_inactive_students_inv (today : Int) (st : ProgState)
    (m : Nat) (h : archivedDateInv st) {r : ArchiveStats × ProgState}
    (hr : auto_archive_inactive_students today st m = .ok r) :
    archivedDateInv r.2 := by
  cases hp : check_permission st "archive_student"
  · simp [auto_archive_inactive_students, hp] at hr
  · simp only [auto_archive_inactive_students, hp, Bool.not_true,
      Bool.false_eq_true, if_false] at hr
    cases hf : find_students_to_archive today st m with
    | error e =>
      simp [hf] at hr
    | ok cands =>
      simp only [hf, Except.ok.injEq] at hr
      subst hr
      exact autoArchive_foldl_inv today cands (st, 0, 0) h

/-- Every operation of the alphabet preserves the invariant. -/
theorem applyOp_inv (st : ProgState) (op : Op) (h : archivedDateInv st) :
    archivedDateInv (applyOp st op) := by
  cases op with
  | addStudentOp t n p e =>
    rcases hr : add_student t st n p e with e2 | r
    · simp only [applyOp, hr]
      exact h
    · simp only [applyOp, hr]
      exact add_student_inv t st n p e h hr
  | markGraduatedOp t sid =>
    rcases hr : mark_as_graduated t st sid with e2 | st2
    · simp only [applyOp, hr]
      exact h
    · simp only [applyOp, hr]
      exact mark_as_graduated_inv t st sid h hr
  | archiveOp t sid =>
    rcases hr : archive_student t st sid with e2 | r
    · simp only [applyOp, hr]
      exact h
    · simp only [applyOp, hr]
      exact archive_student_inv t st sid h hr
  | unarchiveOp sid =>
    rcases hr : unarchive_student st sid with e2 | r
    · simp only [applyOp, hr]
      exact h
    · simp only [applyOp, hr]
      exact unarchive_student_inv st sid h hr
  | autoArchiveOp t m =>
    rcases hr : auto_archive_inactive_students t st m with e2 | r
    · simp only [applyOp, hr]
      exact h
    · simp only [applyOp, hr]
      exact auto_archive_inactive_students_inv t st m h hr

/-- C6: every student record reachable by any sequence of the mutating
operations from a store satisfying the invariant again satisfies it:
`archived` is true exactly when `archived_date` is non-null; each
operation preserves the invariant. -/
theorem c6_archived_invariant (st : ProgState) (ops : List Op)
    (h : archivedDateInv st) : archivedDateInv (runOps st ops) := by
  induction ops generalizing st with
  | nil => exact h
  | cons op rest ih => exact ih (applyOp st op) (applyOp_inv st op h)

/-- Witness for C6: a concrete admin session runs an add, an archive, an
unarchive, a graduation marking and an auto-archive pass; the invariant
holds afterwards. -/
theorem c6_archived_invariant_witness :
    archivedDateInv (runOps exC10State
      [Op.addStudentOp 2 "New" "" "", Op.archiveOp 5 2, Op.unarchiveOp 1,
       Op.markGraduatedOp 7 2, Op.autoArchiveOp 1000 24]) :=
  c6_archived_invariant exC10State
    [Op.addStudentOp 2 "New" "" "", Op.archiveOp 5 2, Op.unarchiveOp 1,
     Op.markGraduatedOp 7 2, Op.autoArchiveOp 1000 24]
    (by unfold archivedDateInv; decide)
